import Mathlib

/-!
Verification of the home-flip-ai frontend against its specification.

The JavaScript source is shallowly embedded: JS numbers are modelled as
exact scaled decimals plus an explicit NaN constructor (`JsNum`), fields
that may arrive as a string, a number, or `undefined` are modelled by
`StrOrNum`, and each component's logic (API client, filter form
normalization, the Dashboard's derived filter, the Property List sort, and
the Map View's marker/popup handling) is translated function by function
from the corresponding `.jsx` / api source module.
-/

namespace HomeFlip

/-- Model of a JavaScript number: NaN, or the exact value m / 10^k.
Every numeric value the frontend computes is obtained by parsing a decimal
string or comparing/subtracting such values, so scaled decimals represent
them exactly. Comparisons go through the value-level operations below
(jsEq, jsGt, ...), which quotient out the scale. -/
inductive JsNum where
  | nan : JsNum
  | dec (m : ℤ) (k : ℕ) : JsNum
  deriving DecidableEq

/-- Shorthand for an integer-valued JS number. -/
def jsInt (n : ℤ) : JsNum := .dec n 0

/-- JS isNaN on a number. -/
def JsNum.isNaN : JsNum → Bool
  | .nan => true
  | .dec _ _ => false

/-- JS truthiness of a number: false for NaN and for 0. -/
def jsTruthy : JsNum → Bool
  | .nan => false
  | .dec m _ => m != 0

/-- JS loose/strict equality on two numbers (value equality; NaN equals
nothing, including itself). -/
def jsEq : JsNum → JsNum → Bool
  | .dec m1 k1, .dec m2 k2 => m1 * (10 : ℤ) ^ k2 == m2 * (10 : ℤ) ^ k1
  | _, _ => false

/-- JS strict greater-than; any comparison with NaN is false. -/
def jsGt : JsNum → JsNum → Bool
  | .dec m1 k1, .dec m2 k2 => m1 * (10 : ℤ) ^ k2 > m2 * (10 : ℤ) ^ k1
  | _, _ => false

/-- JS less-or-equal; any comparison with NaN is false. -/
def jsLe : JsNum → JsNum → Bool
  | .dec m1 k1, .dec m2 k2 => m1 * (10 : ℤ) ^ k2 ≤ m2 * (10 : ℤ) ^ k1
  | _, _ => false

/-- JS greater-or-equal; any comparison with NaN is false. -/
def jsGe : JsNum → JsNum → Bool
  | .dec m1 k1, .dec m2 k2 => m1 * (10 : ℤ) ^ k2 ≥ m2 * (10 : ℤ) ^ k1
  | _, _ => false

/-- JS subtraction; NaN propagates. -/
def jsSub : JsNum → JsNum → JsNum
  | .dec m1 k1, .dec m2 k2 => .dec (m1 * (10 : ℤ) ^ k2 - m2 * (10 : ℤ) ^ k1) (k1 + k2)
  | _, _ => .nan

/-- The JS idiom `x || 0` applied to a number (beds/baths/days defaults). -/
def jsOrZero (x : JsNum) : JsNum := if jsTruthy x then x else jsInt 0

/-- JS whitespace test for the characters that matter here. -/
def isWhitespaceChar (c : Char) : Bool :=
  c = ' ' || c = '\t' || c = '\n' || c = '\r'

/-- Model of JS String.prototype.trim. -/
def jsTrim (s : String) : String :=
  String.mk (((s.toList.dropWhile isWhitespaceChar).reverse.dropWhile isWhitespaceChar).reverse)

/-- Model of JS String.prototype.toUpperCase (ASCII range, which covers
every status value in scope). -/
def jsUpper (s : String) : String := String.mk (s.toList.map Char.toUpper)

/-- Split a character list at every occurrence of sep. -/
def splitAtChar (sep : Char) (cs : List Char) : List (List Char) :=
  cs.foldr
    (fun c acc =>
      match acc with
      | g :: gs => if c = sep then [] :: g :: gs else (c :: g) :: gs
      | [] => [[c]])
    [[]]

/-- Model of JS String.prototype.split(',') . -/
def jsSplitComma (s : String) : List String :=
  (splitAtChar ',' s.toList).map String.mk

/-- Character-list version of the startsWith test. -/
def startsWithList : List Char → List Char → Bool
  | _, [] => true
  | [], _ :: _ => false
  | c :: cs, p :: ps => c = p && startsWithList cs ps

/-- Model of JS String.prototype.startsWith. -/
def jsStartsWith (s pat : String) : Bool :=
  startsWithList s.toList pat.toList

/-- Numeric value of a digit character. -/
def digitVal (c : Char) : ℕ := c.toNat - 48

/-- Value of a list of decimal digit characters. -/
def digitsToNat (cs : List Char) : ℕ :=
  cs.foldl (fun acc c => 10 * acc + digitVal c) 0

/-- Model of JS Number(string) on the decimal fragment: optional sign,
digits with at most one decimal point. The empty (trimmed) string parses
to 0, as in JS; anything else non-conforming is NaN. (Exponent and hex
forms never reach Number() in this codebase: price inputs are first
stripped to the characters 0-9, dot and minus.) -/
def jsParseNumber (s : String) : JsNum :=
  let t := jsTrim s
  if t = "" then jsInt 0
  else
    let cs := t.toList
    let signAndBody : ℤ × List Char :=
      match cs with
      | '-' :: rest => (-1, rest)
      | '+' :: rest => (1, rest)
      | rest => (1, rest)
    let sgn := signAndBody.1
    let body := signAndBody.2
    let intDs := body.takeWhile Char.isDigit
    let rest := body.dropWhile Char.isDigit
    match rest with
    | [] =>
      if intDs.isEmpty then .nan
      else .dec (sgn * (digitsToNat intDs : ℤ)) 0
    | '.' :: fracDs =>
      if fracDs.all Char.isDigit && (!intDs.isEmpty || !fracDs.isEmpty) then
        .dec (sgn * (digitsToNat (intDs ++ fracDs) : ℤ)) fracDs.length
      else .nan
    | _ => .nan

/-- Characters kept by the regex replace /[^0-9.-]+/g used on price inputs. -/
def isPriceChar (c : Char) : Bool := c.isDigit || c = '.' || c = '-'

/-- Model of s.replace(/[^0-9.-]+/g, ''). -/
def stripFormatting (s : String) : String :=
  String.mk (s.toList.filter isPriceChar)

/-- Drop trailing decimal zeros from the scaled representation (n, k),
with explicit fuel; this realises the shortest-form printing JS uses. -/
def dropTrailingZeros : ℕ → ℕ → ℕ → ℕ × ℕ
  | 0, n, k => (n, k)
  | fuel + 1, n, k => if k ≠ 0 ∧ n % 10 = 0 then dropTrailingZeros fuel (n / 10) (k - 1) else (n, k)

/-- Decimal digit string of m with a point inserted k digits from the right
(zero-padded on the left as needed), e.g. decimalString 5 1 = "0.5". -/
def decimalString (m k : ℕ) : String :=
  let ds := (toString m).toList
  if k = 0 then String.mk ds
  else
    let padded := if ds.length ≤ k then List.replicate (k + 1 - ds.length) '0' ++ ds else ds
    String.mk (padded.take (padded.length - k) ++ '.' :: padded.drop (padded.length - k))

/-- Model of JS String(number): NaN prints "NaN"; a finite value prints as
its exact decimal expansion with trailing zeros removed, which is the
shortest round-trip form for every value this model produces. -/
def jsStringOfNum : JsNum → String
  | .nan => "NaN"
  | .dec m k =>
    let p := dropTrailingZeros k m.natAbs k
    (if m < 0 ∧ m.natAbs ≠ 0 then "-" else "") ++ decimalString p.1 p.2

/-- Raw JSON field that may arrive as a string, a number, or be absent
(undefined). -/
inductive StrOrNum where
  | undef : StrOrNum
  | str (v : String) : StrOrNum
  | num (v : JsNum) : StrOrNum
  deriving DecidableEq

/-- JS truthiness of such a field. -/
def StrOrNum.truthy : StrOrNum → Bool
  | .undef => false
  | .str v => v != ""
  | .num v => jsTruthy v

/-- JS Number() coercion of such a field (Number(undefined) is NaN). -/
def StrOrNum.toNum : StrOrNum → JsNum
  | .undef => .nan
  | .str v => jsParseNumber v
  | .num v => v

/-- JS String() coercion of such a field (String(undefined) is
"undefined"). -/
def StrOrNum.toStr : StrOrNum → String
  | .undef => "undefined"
  | .str v => v
  | .num v => jsStringOfNum v

/-- Raw photos / alt_photos field: absent, a single (possibly
comma-joined) string, or an array of strings. -/
inductive PhotoField where
  | undef : PhotoField
  | pstr (v : String) : PhotoField
  | parr (xs : List String) : PhotoField
  deriving DecidableEq

/-- JS truthiness of a photos field (an array is always truthy, a string
is truthy iff nonempty). -/
def PhotoField.truthy : PhotoField → Bool
  | .undef => false
  | .pstr v => v != ""
  | .parr _ => true

/-- A property record as it arrives from the backend, before the filter
form normalizes it. Optional string fields use Option for undefined. -/
structure RawProperty where
  property_id : Option String := none
  street : Option String := none
  city : Option String := none
  state : Option String := none
  zip_code : StrOrNum := .undef
  list_price : StrOrNum := .undef
  sqft : StrOrNum := .undef
  beds : StrOrNum := .undef
  baths : StrOrNum := .undef
  full_baths : StrOrNum := .undef
  days_on_market : StrOrNum := .undef
  days_on_mls : StrOrNum := .undef
  latitude : StrOrNum := .undef
  longitude : StrOrNum := .undef
  agent_name : Option String := none
  agent_email : Option String := none
  agent_phones : Option (List String) := none
  photos : PhotoField := .undef
  alt_photos : PhotoField := .undef
  property_url : Option String := none
  status : Option String := none
  deriving DecidableEq

/-- The normalized property record handed to the Dashboard
(PropertyFilter.jsx, the object literal built in handleSubmit). -/
structure Property where
  property_id : String
  street : String
  city : String
  state : String
  zip_code : String
  list_price : JsNum
  sqft : JsNum
  beds : JsNum
  baths : JsNum
  days_on_market : JsNum
  latitude : JsNum
  longitude : JsNum
  agent_name : String
  agent_email : String
  agent_phones : List String
  photos : List String
  property_url : String
  status : String
  deriving DecidableEq

/-- The JS idiom `v || d` for an optional string field. -/
def orDefault (v : Option String) (d : String) : String :=
  match v with
  | some x => if x != "" then x else d
  | none => d

/-- Coordinate validity test of PropertyFilter.handleSubmit: both
coordinates coerce to non-NaN numbers, latitude in -90..90 and longitude
in -180..180. -/
def validCoordsNum (lat lng : JsNum) : Bool :=
  !lat.isNaN && !lng.isNaN &&
    jsGe lat (jsInt (-90)) && jsLe lat (jsInt 90) &&
    jsGe lng (jsInt (-180)) && jsLe lng (jsInt 180)

/-- Coordinate validity of a raw record (the filter predicate in
PropertyFilter.handleSubmit, lines 40-58). -/
def validCoordsRaw (p : RawProperty) : Bool :=
  validCoordsNum p.latitude.toNum p.longitude.toNum

/-- Photo-field normalization of PropertyFilter.handleSubmit (lines
60-74): a truthy photos field is used as-is (array) or wrapped in a
singleton (string); otherwise a truthy alt_photos field is used as-is
(array) or comma-split and trimmed (string); otherwise no photos. -/
def processPhotos (p : RawProperty) : List String :=
  if p.photos.truthy then
    match p.photos with
    | .parr xs => xs
    | .pstr s => [s]
    | .undef => []
  else if p.alt_photos.truthy then
    match p.alt_photos with
    | .parr xs => xs
    | .pstr s => (jsSplitComma s).map jsTrim
    | .undef => []
  else []

/-- Field normalization of PropertyFilter.handleSubmit (the processed
object literal, lines 76-95). The Math.random suffix of the fallback id is
abstracted to the constant prefix the code uses. -/
def processProperty (p : RawProperty) : Property where
  property_id := orDefault p.property_id "temp_"
  street := orDefault p.street "Address not available"
  city := orDefault p.city ""
  state := orDefault p.state ""
  zip_code := jsTrim (if p.zip_code.truthy then p.zip_code else .str "").toStr
  list_price := jsParseNumber (stripFormatting p.list_price.toStr)
  sqft := jsParseNumber (stripFormatting (if p.sqft.truthy then p.sqft else .str "0").toStr)
  beds := jsOrZero p.beds.toNum
  baths := jsOrZero (if p.baths.truthy then p.baths else p.full_baths).toNum
  days_on_market := jsOrZero (if p.days_on_market.truthy then p.days_on_market else p.days_on_mls).toNum
  latitude := p.latitude.toNum
  longitude := p.longitude.toNum
  agent_name := orDefault p.agent_name ""
  agent_email := orDefault p.agent_email ""
  agent_phones := match p.agent_phones with
    | some xs => xs
    | none => []
  photos := processPhotos p
  property_url := orDefault p.property_url ""
  status := orDefault p.status ""

/-- Normalization pipeline of PropertyFilter.handleSubmit: records with
invalid coordinates are filtered out, the rest are normalized. The result
is what onPropertiesLoaded hands to the Dashboard. -/
def processProperties (ps : List RawProperty) : List Property :=
  (ps.filter validCoordsRaw).map processProperty

/-- Outcome of one HTTP request: parsed response data, or a transport /
non-2xx failure carrying an error message. -/
inductive Transport (α : Type) where
  | ok (data : α) : Transport α
  | err (msg : String) : Transport α
  deriving DecidableEq

/-- Untyped JSON-ish value, used where the api module passes response.data
through without inspecting its shape. -/
inductive ApiValue where
  | vnull : ApiValue
  | vstr (s : String) : ApiValue
  | vnum (n : JsNum) : ApiValue
  | varr (xs : List ApiValue) : ApiValue
  | vobj (fields : List (String × ApiValue)) : ApiValue

/-- The empty-result shape of the services/api lineage. -/
def emptyPropertiesShape : ApiValue := .vobj [("properties", .varr [])]

/-- API client fetchProperties (services/api, src/unnamed/part_010): on
success the parsed body is returned; on any failure the catch block
returns the object-with-empty-array shape instead of re-throwing. -/
def fetchProperties : Transport ApiValue → ApiValue
  | .ok d => d
  | .err _ => emptyPropertiesShape

/-- The fetchProperties of the src/unnamed/part_009 lineage: identical on
success, but its catch block returns a bare empty array. -/
def fetchProperties_alt : Transport ApiValue → ApiValue
  | .ok d => d
  | .err _ => .varr []

/-- API client scrapeProperties: the catch block re-throws, so a failure
propagates to the caller as an exception. -/
def scrapeProperties (zipCode : String) (maxPrice : JsNum) :
    Transport ApiValue → Except String ApiValue
  | .ok d => .ok d
  | .err e => .error e

/-- API client predictProperty: the catch block re-throws. -/
def predictProperty (propertyData : ApiValue) :
    Transport ApiValue → Except String ApiValue
  | .ok d => .ok d
  | .err e => .error e

/-- The response.properties field as PropertyFilter.handleSubmit inspects
it: absent/falsy, an array, or a non-array object whose values are taken
with Object.values. -/
inductive ScrapeData where
  | props (ps : List RawProperty) : ScrapeData
  | propsObj (fields : List (String × RawProperty)) : ScrapeData
  | missing : ScrapeData
  deriving DecidableEq

/-- A Dashboard filter value: the zip filter holds a string, the max-price
filter a string or a number (both occur: the form pushes a number, a user
edit pushes a string). -/
inductive FVal where
  | fstr (s : String) : FVal
  | fnum (n : JsNum) : FVal
  deriving DecidableEq

/-- JS truthiness of a filter value. -/
def FVal.truthy : FVal → Bool
  | .fstr s => s != ""
  | .fnum n => jsTruthy n

/-- JS String() coercion of a filter value. -/
def FVal.toStr : FVal → String
  | .fstr s => s
  | .fnum n => jsStringOfNum n

/-- Observable outcome of one submission of the search form. -/
structure SubmitOutcome where
  error : Option String
  scrapeCalled : Bool
  filterUpdates : List (String × FVal)
  loaded : Option (List Property)
  deriving DecidableEq

/-- PropertyFilter.handleSubmit: strip and validate the max price (a NaN
or non-positive value is rejected with a user-visible error before the
network call), call the scrape endpoint, normalize the result, push the
filter values and the processed list upward. Any thrown error ends up in
the component's error state. -/
def handleSubmit (zipCode maxPriceInput : String) (net : Transport ScrapeData) :
    SubmitOutcome :=
  let cleanedMaxPrice := stripFormatting maxPriceInput
  let maxPriceNum := jsParseNumber cleanedMaxPrice
  if maxPriceNum.isNaN || jsLe maxPriceNum (jsInt 0) then
    { error := some "Please enter a valid maximum price"
      scrapeCalled := false, filterUpdates := [], loaded := none }
  else
    match net with
    | .err e =>
      { error := some e, scrapeCalled := true, filterUpdates := [], loaded := none }
    | .ok .missing =>
      { error := some "No properties data in response"
        scrapeCalled := true, filterUpdates := [], loaded := none }
    | .ok (.props ps) =>
      { error := none, scrapeCalled := true
        filterUpdates := [("zipCode", .fstr (jsTrim zipCode)), ("maxPrice", .fnum maxPriceNum)]
        loaded := some (processProperties ps) }
    | .ok (.propsObj fields) =>
      { error := none, scrapeCalled := true
        filterUpdates := [("zipCode", .fstr (jsTrim zipCode)), ("maxPrice", .fnum maxPriceNum)]
        loaded := some (processProperties (fields.map Prod.snd)) }

/-- The Dashboard filter state: a JS object mapping filter names to
values, modelled as an association list looked up front-to-back. -/
def Filters : Type := List (String × FVal)

/-- Points lookup of a filter entry. -/
def getFilter (fs : Filters) (name : String) : Option FVal :=
  match fs with
  | [] => none
  | (k, v) :: rest => if k = name then some v else getFilter rest name

/-- The JS object-spread update of one filter entry
(Dashboard.handleFilterChange). -/
def setFilter (fs : Filters) (name : String) (v : FVal) : Filters :=
  (name, v) :: (fs : List (String × FVal)).filter (fun kv => kv.1 != name)

/-- Status exclusion of Dashboard.filteredProperties (lines 74-82): the
status is uppercased and compared against PENDING / SOLD / CLOSED. -/
def statusRuleExcludes (rawStatus : String) : Bool :=
  let status := jsUpper rawStatus
  status == "PENDING" || status == "SOLD" || status == "CLOSED"

/-- Zip exclusion of Dashboard.filteredProperties (lines 84-95): applies
only when the zip filter is truthy, and compares the string forms. -/
def zipRuleExcludes (zipF : Option FVal) (propertyZip : String) : Bool :=
  match zipF with
  | some f => f.truthy && propertyZip != f.toStr
  | none => false

/-- Price exclusion of Dashboard.filteredProperties (lines 97-108):
applies only when the max-price filter is truthy; the filter value is
stringified, stripped of formatting and parsed, and a property is dropped
only when both numbers are non-NaN and the property price is strictly
greater. -/
def priceRuleExcludes (mpF : Option FVal) (listPrice : JsNum) : Bool :=
  match mpF with
  | some f =>
    if f.truthy then
      let maxPrice := jsParseNumber (stripFormatting f.toStr)
      !maxPrice.isNaN && !listPrice.isNaN && jsGt listPrice maxPrice
    else false
  | none => false

/-- One property passes Dashboard.filteredProperties iff no rule excludes
it (the source returns false at the first failing rule, true otherwise). -/
def dashboardPropertyPasses (fs : Filters) (p : Property) : Bool :=
  !statusRuleExcludes p.status &&
    !zipRuleExcludes (getFilter fs "zipCode") p.zip_code &&
    !priceRuleExcludes (getFilter fs "maxPrice") p.list_price

/-- The derived filtered view the Dashboard hands to the Property List and
the Map View. -/
def dashboardFiltered (fs : Filters) (props : List Property) : List Property :=
  props.filter (dashboardPropertyPasses fs)

/-- Dashboard component state relevant to the claims. -/
structure DashState where
  properties : List Property
  filters : Filters
  selected : Option Property

/-- The argument Dashboard.handlePropertiesLoaded receives: an array of
(normalized) properties, or any non-array value. -/
inductive LoadedInput where
  | arrI (ps : List Property) : LoadedInput
  | nonArrayI : LoadedInput

/-- Dashboard.handlePropertiesLoaded (lines 24-39): a non-empty array
replaces the property set and replaces the whole filter state with the
first record's zip and price; an empty array or a non-array empties the
property set and leaves the filters untouched. -/
def handlePropertiesLoaded (s : DashState) : LoadedInput → DashState
  | .arrI (p :: rest) =>
    { s with
      filters := [("zipCode", .fstr p.zip_code), ("maxPrice", .fnum p.list_price)]
      properties := p :: rest }
  | .arrI [] => { s with properties := [] }
  | .nonArrayI => { s with properties := [] }

/-- The sort comparator of PropertyList.jsx line 7:
(a, b) => b.list_price - a.list_price. An element may stay before another
exactly when the comparator does not return a positive number; with a NaN
difference nothing is swapped, as in a conforming stable Array.sort. -/
def sortKeepsOrder (a b : Property) : Bool :=
  !(jsGt (jsSub b.list_price a.list_price) (jsInt 0))

/-- PropertyList's sortedProperties: a stable sort of a copy of the input
([...properties].sort(...)), modelled by a stable merge sort with the
comparator above. -/
def sortedProperties (props : List Property) : List Property :=
  props.mergeSort sortKeepsOrder

/-- The thumbnail check of MapView.createInfoWindowContent (lines 14-16):
the first photo is rendered as an image source iff it is a truthy string
that starts with "http"; otherwise the no-image placeholder is shown. -/
def hasValidPhoto (photos : List String) : Bool :=
  match photos.head? with
  | none => false
  | some u => u != "" && jsStartsWith u "http"

/-- Modelled from the spec: the spec's notion of a "valid HTTP URL" for a
photo (spec section 3, photos field), which the source never defines or
checks; at minimum the string must carry an http(s) scheme separator and
no spaces. Used only to compare the spec's claim against the source's
prefix test. -/
def specValidHttpUrl (s : String) : Bool :=
  (jsStartsWith s "http://" || jsStartsWith s "https://") &&
    !(s.toList.contains ' ')

/-- Marker creation pass of the MapView properties effect (lines 108-187):
a marker is added for a property whose latitude and longitude are truthy
and whose id is not in the registry yet. Returns the updated registry in
insertion order. -/
def placeMarkers (registry : List String) (props : List Property) : List String :=
  props.foldl
    (fun reg p =>
      if jsTruthy p.latitude && jsTruthy p.longitude && !(reg.contains p.property_id) then
        reg ++ [p.property_id]
      else reg)
    registry

/-- Popup-relevant state of the Map View: the marker registry (property
ids with a marker), the Dashboard-owned selected property id, the refs to
the selected and hovered info windows, and the set of currently open info
windows, all keyed by property id. -/
structure MapPopupState where
  registry : List String
  selected : Option String
  selectedPopup : Option String
  hoveredPopup : Option String
  openPopups : List String
  deriving DecidableEq

/-- Initial Map View popup state for a given registry: nothing selected,
nothing hovered, no popup open. -/
def initMapState (registry : List String) : MapPopupState :=
  { registry := registry, selected := none, selectedPopup := none
    hoveredPopup := none, openPopups := [] }

/-- Close a popup: it is no longer open. -/
def closePopup (opens : List String) (id : String) : List String :=
  opens.filter (fun x => x != id)

/-- Open a popup (idempotent). -/
def openPopup (opens : List String) (id : String) : List String :=
  if opens.contains id then opens else id :: opens

/-- Marker interaction events: a marker click, pointer enter/leave on a
marker, and an external selection change (e.g. a list-card click). -/
inductive MapEvent where
  | click (id : String) : MapEvent
  | mouseover (id : String) : MapEvent
  | mouseout (id : String) : MapEvent
  | extSelect (id : String) : MapEvent

/-- The selected-property effect of MapView.jsx (lines 220-240): a no-op
unless the selected property has a marker in the registry; otherwise the
previously selected info window is closed when different, any hovered info
window is closed, and the selected marker's info window is opened and
recorded. -/
def selectionEffect (s : MapPopupState) : MapPopupState :=
  match s.selected with
  | none => s
  | some id =>
    if s.registry.contains id then
      let o1 := match s.selectedPopup with
        | some p => if p ≠ id then closePopup s.openPopups p else s.openPopups
        | none => s.openPopups
      let o2 := match s.hoveredPopup with
        | some h => closePopup o1 h
        | none => o1
      { s with openPopups := openPopup o2 id, hoveredPopup := none, selectedPopup := some id }
    else s

/-- The body of the marker click listener (lines 143-157): close the
previously selected info window and any hovered one, select the property,
open this info window and record it as selected. -/
def clickBody (s : MapPopupState) (id : String) : MapPopupState :=
  let o1 := match s.selectedPopup with
    | some p => closePopup s.openPopups p
    | none => s.openPopups
  let o2 := match s.hoveredPopup with
    | some h => closePopup o1 h
    | none => o1
  { s with
    selected := some id
    openPopups := openPopup o2 id
    hoveredPopup := none
    selectedPopup := some id }

/-- One step of the marker interaction machine. A click runs the click
listener and then the selection effect that the resulting selection change
triggers; mouseover opens a hover popup only for a marker whose property
is not the currently selected one; mouseout closes only the hovered popup;
an external selection change runs the selection effect. Events naming ids
without a marker have no listener and change nothing map-side. -/
def mapStep (s : MapPopupState) : MapEvent → MapPopupState
  | .click id => if s.registry.contains id then selectionEffect (clickBody s id) else s
  | .mouseover id =>
    if s.registry.contains id then
      if s.selected ≠ some id then
        let o1 := match s.hoveredPopup with
          | some h => closePopup s.openPopups h
          | none => s.openPopups
        { s with openPopups := openPopup o1 id, hoveredPopup := some id }
      else s
    else s
  | .mouseout id =>
    if s.registry.contains id ∧ s.hoveredPopup = some id then
      { s with openPopups := closePopup s.openPopups id, hoveredPopup := none }
    else s
  | .extSelect id => selectionEffect { s with selected := some id }

/-- Popup discipline invariant: every open popup is the recorded selected
popup or the recorded hovered popup (so at most one popup is ever in the
selected state, plus at most one transient hovered popup); the hovered
popup never belongs to the currently selected property; and a hovered
popup always has a marker in the registry. -/
def popupInv (s : MapPopupState) : Prop :=
  (∀ p ∈ s.openPopups, s.selectedPopup = some p ∨ s.hoveredPopup = some p)
  ∧ (∀ h, s.hoveredPopup = some h → s.selected ≠ some h)
  ∧ (∀ h, s.hoveredPopup = some h → h ∈ s.registry)

/-- A raw backend record with valid coordinates, as returned for the
end-to-end search scenario (zip 32801, maxPrice 500000). -/
def rawValid : RawProperty where
  property_id := some "p1"
  street := some "1 Main St"
  city := some "Orlando"
  state := some "FL"
  zip_code := .str "32801"
  list_price := .num (jsInt 400000)
  sqft := .num (jsInt 1500)
  beds := .num (jsInt 3)
  baths := .num (jsInt 2)
  days_on_market := .num (jsInt 10)
  latitude := .str "28.5"
  longitude := .str "-81.4"
  photos := .pstr "http://example.com/a.jpg"
  property_url := some "http://example.com/l1"
  status := some "ACTIVE"

/-- A raw backend record of the same scenario whose latitude is out of
range, so its coordinates are invalid. -/
def rawInvalid : RawProperty :=
  { rawValid with
    property_id := some "p2"
    street := some "2 Oak Ave"
    latitude := .str "999" }

/-- The two-record backend response of the end-to-end scenario. -/
def scenarioResponse : List RawProperty := [rawValid, rawInvalid]

/-- A raw record whose photos field is a string that starts with "http"
but is not a valid HTTP URL. -/
def rawPhotoBad : RawProperty :=
  { rawValid with
    property_id := some "p3"
    photos := .pstr "httpx" }

/-- A normalized property with ACTIVE status used as a base for the
Dashboard filter counterexamples. -/
def sampleActive : Property := processProperty rawValid

/-! Theorems, one per claim of the specification review. -/

/-- Claim C3, counterexample: on a transport failure the part_009 lineage
of fetchProperties returns a bare empty array, not the claimed
object-with-empty-properties shape. -/
theorem fetch_failure_shape_counterexample :
    fetchProperties_alt (.err "Network Error") = .varr []
    ∧ fetchProperties_alt (.err "Network Error") ≠ emptyPropertiesShape :=
  ⟨rfl, fun h => by simp [fetchProperties_alt, emptyPropertiesShape] at h⟩

/-- Claim C3, amended: on transport or non-2xx failure fetchProperties
never raises and returns an empty result (the object shape
(properties: empty) in the services/api lineage, a bare empty array in
the part_009 lineage), while scrapeProperties and predictProperty
propagate the failure by re-raising it; on success all three return the
parsed body. -/
theorem api_failure_semantics (e : String) (d pd : ApiValue) (z : String) (mp : JsNum) :
    fetchProperties (.err e) = emptyPropertiesShape
    ∧ fetchProperties (.ok d) = d
    ∧ fetchProperties_alt (.err e) = .varr []
    ∧ fetchProperties_alt (.ok d) = d
    ∧ scrapeProperties z mp (.err e) = .error e
    ∧ scrapeProperties z mp (.ok d) = .ok d
    ∧ predictProperty pd (.err e) = .error e
    ∧ predictProperty pd (.ok d) = .ok d :=
  ⟨rfl, rfl, rfl, rfl, rfl, rfl, rfl, rfl⟩

/-- Claim C10: a non-empty loaded array replaces the property set and
replaces the whole filter state with exactly the first record's zip code
and list price; an empty array or a non-array value empties the property
set and leaves the filter state untouched. -/
theorem properties_loaded_replaces_filter_state (s : DashState) (p : Property)
    (rest : List Property) :
    handlePropertiesLoaded s (.arrI (p :: rest)) =
      { s with
        properties := p :: rest
        filters := [("zipCode", FVal.fstr p.zip_code), ("maxPrice", FVal.fnum p.list_price)] }
    ∧ handlePropertiesLoaded s (.arrI []) = { s with properties := [] }
    ∧ handlePropertiesLoaded s .nonArrayI = { s with properties := [] } :=
  ⟨rfl, rfl, rfl⟩

/-- Claim C5: a submission whose max price is NaN or non-positive after
stripping formatting characters sets the user-visible validation error
and never reaches the scrape call. -/
theorem invalid_maxprice_rejected (zip mp : String) (net : Transport ScrapeData)
    (h : (jsParseNumber (stripFormatting mp)).isNaN = true
      ∨ jsLe (jsParseNumber (stripFormatting mp)) (jsInt 0) = true) :
    (handleSubmit zip mp net).scrapeCalled = false
    ∧ (handleSubmit zip mp net).error = some "Please enter a valid maximum price" := by
  have hcond : ((jsParseNumber (stripFormatting mp)).isNaN
      || jsLe (jsParseNumber (stripFormatting mp)) (jsInt 0)) = true := by
    rcases h with h | h <;> simp [h]
  simp [handleSubmit, hcond]

/-- Witness for C5 at the concrete input "abc" (which strips to the empty
string and parses to 0, a non-positive price). -/
theorem invalid_maxprice_rejected_witness :
    ((jsParseNumber (stripFormatting "abc")).isNaN = true
      ∨ jsLe (jsParseNumber (stripFormatting "abc")) (jsInt 0) = true)
    ∧ (handleSubmit "32801" "abc" (.ok .missing)).scrapeCalled = false
    ∧ (handleSubmit "32801" "abc" (.ok .missing)).error
        = some "Please enter a valid maximum price" :=
  ⟨Or.inr (by decide),
    (invalid_maxprice_rejected "32801" "abc" (.ok .missing) (Or.inr (by decide))).1,
    (invalid_maxprice_rejected "32801" "abc" (.ok .missing) (Or.inr (by decide))).2⟩

/-- Claim C9: an external selection change to a property id with no entry
in the marker registry only records the new selection; the selected popup
ref, the hovered popup ref, the set of open popups and the registry are
left exactly as they were. -/
theorem select_unknown_marker_noop (s : MapPopupState) (q : String)
    (h : q ∉ s.registry) :
    mapStep s (.extSelect q) = { s with selected := some q }
    ∧ (mapStep s (.extSelect q)).selectedPopup = s.selectedPopup
    ∧ (mapStep s (.extSelect q)).hoveredPopup = s.hoveredPopup
    ∧ (mapStep s (.extSelect q)).openPopups = s.openPopups
    ∧ (mapStep s (.extSelect q)).registry = s.registry := by
  have hstep : mapStep s (.extSelect q) = { s with selected := some q } := by
    simp [mapStep, selectionEffect, h]
  exact ⟨hstep, by rw [hstep], by rw [hstep], by rw [hstep], by rw [hstep]⟩

/-- Witness for C9: selecting the unknown id "p9" while "p1" has the
selected open popup changes nothing but the recorded selection. -/
theorem select_unknown_marker_noop_witness :
    "p9" ∉ (MapPopupState.mk ["p1"] (some "p1") (some "p1") none ["p1"]).registry
    ∧ mapStep (MapPopupState.mk ["p1"] (some "p1") (some "p1") none ["p1"]) (.extSelect "p9")
        = { MapPopupState.mk ["p1"] (some "p1") (some "p1") none ["p1"] with selected := some "p9" } :=
  ⟨by decide,
    (select_unknown_marker_noop (MapPopupState.mk ["p1"] (some "p1") (some "p1") none ["p1"])
      "p9" (by decide)).1⟩

/-- Looking up the just-set filter entry returns the new value. -/
theorem getFilter_setFilter_same (fs : Filters) (name : String) (v : FVal) :
    getFilter (setFilter fs name v) name = some v := by
  simp [setFilter, getFilter]

/-- Removing the entries of one filter name does not change the lookup of
a different name. -/
theorem getFilter_erase (l : Filters) (name other : String) (h : other ≠ name) :
    getFilter ((l : List (String × FVal)).filter (fun kv => kv.1 != name)) other
      = getFilter l other := by
  induction l with
  | nil => rfl
  | cons kv rest ih =>
    have hne : ¬ name = other := fun hc => h hc.symm
    by_cases hk : kv.1 = name
    · simp [List.filter_cons, hk, getFilter, hne, h, ih]
    · by_cases ho : kv.1 = other
      · simp [List.filter_cons, hk, getFilter, ho, hne, h, ih]
      · simp [List.filter_cons, hk, getFilter, ho, hne, h, ih]

/-- Looking up a different entry is unaffected by a filter update. -/
theorem getFilter_setFilter_other (fs : Filters) (name other : String) (v : FVal)
    (h : other ≠ name) :
    getFilter (setFilter fs name v) other = getFilter fs other := by
  unfold setFilter
  have hne : ¬ name = other := fun hc => h hc.symm
  simp [getFilter, hne, getFilter_erase fs name other h]

/-- A number is never strictly greater than itself. -/
theorem jsGt_self (x : JsNum) : jsGt x x = false := by
  cases x <;> simp [jsGt]

/-- Claim C4: filtering with the formatted max-price string "1,000,000"
yields exactly the same filtered set as filtering with the number 1000000,
for every property set and every surrounding filter state; and the price
rule never excludes a property whose coerced price equals the parsed
max-price boundary (the comparison is strict greater-than). -/
theorem maxprice_format_equiv :
    (∀ (fs : Filters) (props : List Property),
      dashboardFiltered (setFilter fs "maxPrice" (.fstr "1,000,000")) props
        = dashboardFiltered (setFilter fs "maxPrice" (.fnum (jsInt 1000000))) props)
    ∧ (∀ (f : FVal) (price : JsNum),
        price = jsParseNumber (stripFormatting f.toStr) →
        priceRuleExcludes (some f) price = false) := by
  constructor
  · intro fs props
    unfold dashboardFiltered
    apply List.filter_congr
    intro p _
    unfold dashboardPropertyPasses
    rw [getFilter_setFilter_other fs "maxPrice" "zipCode" _ (by decide),
        getFilter_setFilter_other fs "maxPrice" "zipCode" _ (by decide),
        getFilter_setFilter_same, getFilter_setFilter_same]
    have hval : priceRuleExcludes (some (.fstr "1,000,000")) p.list_price
        = priceRuleExcludes (some (.fnum (jsInt 1000000))) p.list_price := by
      have h1 : jsParseNumber (stripFormatting (FVal.toStr (.fstr "1,000,000")))
          = jsInt 1000000 := by decide
      have h2 : jsParseNumber (stripFormatting (FVal.toStr (.fnum (jsInt 1000000))))
          = jsInt 1000000 := by decide
      have ht1 : FVal.truthy (.fstr "1,000,000") = true := by decide
      have ht2 : FVal.truthy (.fnum (jsInt 1000000)) = true := by decide
      unfold priceRuleExcludes
      simp only [ht1, ht2, h1, h2, if_true]
    rw [hval]
  · intro f price hp
    unfold priceRuleExcludes
    by_cases ht : f.truthy
    · simp only [ht, if_pos]
      rw [← hp] at *
      cases hn : price.isNaN
      · simp [jsGt_self, hp]
      · simp [hn]
    · simp [ht]

/-- Witness for C4: concrete equal filtered views for a one-property set,
and the boundary case at exactly 1000000. -/
theorem maxprice_format_equiv_witness :
    dashboardFiltered (setFilter [] "maxPrice" (.fstr "1,000,000")) [sampleActive]
      = dashboardFiltered (setFilter [] "maxPrice" (.fnum (jsInt 1000000))) [sampleActive]
    ∧ (jsInt 1000000 = jsParseNumber (stripFormatting (FVal.toStr (.fstr "1,000,000"))))
    ∧ priceRuleExcludes (some (.fstr "1,000,000")) (jsInt 1000000) = false :=
  ⟨maxprice_format_equiv.1 [] [sampleActive], by decide,
    maxprice_format_equiv.2 (.fstr "1,000,000") (jsInt 1000000) (by decide)⟩

/-- Claim C6, counterexample: the status value "Sold" is none of the three
uppercase literals, yet the status rule excludes it from the default view
(the code uppercases before comparing). -/
theorem status_case_counterexample :
    statusRuleExcludes "Sold" = true
    ∧ ("Sold" ≠ "PENDING" ∧ "Sold" ≠ "SOLD" ∧ "Sold" ≠ "CLOSED")
    ∧ dashboardFiltered [] [{ sampleActive with status := "Sold" }] = [] := by
  refine ⟨by decide, ⟨by decide, by decide, by decide⟩, by decide⟩

/-- Claim C6, amended: with no filters set, the Dashboard view keeps
exactly the properties whose uppercased status is not PENDING, SOLD or
CLOSED: any property whose status uppercases into that set is excluded,
and any property whose status does not is kept. -/
theorem default_view_status_rule (props : List Property) :
    dashboardFiltered [] props = props.filter (fun p => !statusRuleExcludes p.status)
    ∧ (∀ p ∈ props, statusRuleExcludes p.status = true → p ∉ dashboardFiltered [] props)
    ∧ (∀ p ∈ props, statusRuleExcludes p.status = false → p ∈ dashboardFiltered [] props) := by
  have hpass : ∀ p : Property, dashboardPropertyPasses [] p = !statusRuleExcludes p.status := by
    intro p
    simp [dashboardPropertyPasses, getFilter, zipRuleExcludes, priceRuleExcludes]
  refine ⟨?_, ?_, ?_⟩
  · unfold dashboardFiltered
    exact List.filter_congr (fun p _ => hpass p)
  · intro p _ hex hmem
    rcases List.mem_filter.mp hmem with ⟨_, hp⟩
    rw [hpass p, hex] at hp
    simp at hp
  · intro p hmem hex
    exact List.mem_filter.mpr ⟨hmem, by rw [hpass p, hex]; rfl⟩

/-- Witness for C6's amended theorem: "Sold" is excluded, ACTIVE is kept,
in a concrete two-property set. -/
theorem default_view_status_rule_witness :
    ({ sampleActive with status := "Sold" } : Property)
        ∉ dashboardFiltered [] [{ sampleActive with status := "Sold" }, sampleActive]
    ∧ sampleActive ∈ dashboardFiltered [] [{ sampleActive with status := "Sold" }, sampleActive] :=
  ⟨(default_view_status_rule [{ sampleActive with status := "Sold" }, sampleActive]).2.1
      { sampleActive with status := "Sold" } (by decide) (by decide),
    (default_view_status_rule [{ sampleActive with status := "Sold" }, sampleActive]).2.2
      sampleActive (by decide) (by decide)⟩

/-- Claim C7, counterexample: the photos string "httpx" normalizes to a
one-element array whose first element is not a valid HTTP URL, yet the
info-window check accepts it as an image source (the code only tests the
"http" prefix). -/
theorem photo_prefix_counterexample :
    processPhotos rawPhotoBad = ["httpx"]
    ∧ (processProperty rawPhotoBad).photos = ["httpx"]
    ∧ hasValidPhoto (processProperty rawPhotoBad).photos = true
    ∧ specValidHttpUrl "httpx" = false := by
  refine ⟨by decide, by decide, by decide, by decide⟩

/-- Claim C7, amended: normalization always yields an array - a photos
array is kept, a truthy photos string becomes a one-element array (it is
not comma-split), a truthy alt_photos string is comma-split and trimmed,
an alt_photos array is kept, and absent fields give the empty array; the
first element is the thumbnail, and it is rendered as an image source iff
it is a nonempty string starting with "http" (no further URL validity is
enforced). -/
theorem photo_normalization_semantics (p : RawProperty) (xs : List String) (s : String) :
    (p.photos = .parr xs → processPhotos p = xs)
    ∧ (p.photos = .pstr s → s ≠ "" → processPhotos p = [s])
    ∧ (p.photos = .undef → p.alt_photos = .parr xs → processPhotos p = xs)
    ∧ (p.photos = .undef → p.alt_photos = .pstr s → s ≠ "" →
        processPhotos p = (jsSplitComma s).map jsTrim)
    ∧ (p.photos = .undef → p.alt_photos = .undef → processPhotos p = [])
    ∧ (∀ (u : String) (rest : List String),
        hasValidPhoto (u :: rest) = (u != "" && jsStartsWith u "http"))
    ∧ hasValidPhoto [] = false := by
  refine ⟨?_, ?_, ?_, ?_, ?_, ?_, ?_⟩
  · intro h; simp [processPhotos, h, PhotoField.truthy]
  · intro h hs; simp [processPhotos, h, PhotoField.truthy, hs]
  · intro h ha; simp [processPhotos, h, ha, PhotoField.truthy]
  · intro h ha hs; simp [processPhotos, h, ha, PhotoField.truthy, hs]
  · intro h ha; simp [processPhotos, h, ha, PhotoField.truthy]
  · intro u rest; simp [hasValidPhoto]
  · rfl

/-- Witness for C7's amended theorem at the scenario records: the bare
photos string stays a singleton, and a comma-joined alt_photos string is
split and trimmed. -/
theorem photo_normalization_semantics_witness :
    processPhotos rawValid = ["http://example.com/a.jpg"]
    ∧ processPhotos
        { rawValid with
          photos := .undef
          alt_photos := .pstr "http://a.jpg, http://b.jpg" }
        = ["http://a.jpg", "http://b.jpg"]
    ∧ hasValidPhoto ["httpx"] = (("httpx" : String) != "" && jsStartsWith "httpx" "http") :=
  ⟨(photo_normalization_semantics rawValid [] "http://example.com/a.jpg").2.1
      (by decide) (by decide),
    by
      have h := (photo_normalization_semantics
        { rawValid with
          photos := .undef
          alt_photos := .pstr "http://a.jpg, http://b.jpg" }
        [] "http://a.jpg, http://b.jpg").2.2.2.1 (by decide) (by decide) (by decide)
      rw [h]; decide,
    (photo_normalization_semantics rawValid [] "x").2.2.2.2.2.1 "httpx" []⟩

/-- Claim C1, counterexample: for the end-to-end scenario response of two
records, one with invalid coordinates, the normalization in the filter
form already drops the invalid record, so the set handed to the Dashboard
has one property (the Property List shows 1 card, not the claimed 2), and
the Map View places exactly one marker. -/
theorem scenario_list_count_counterexample :
    scenarioResponse.length = 2
    ∧ validCoordsRaw rawValid = true
    ∧ validCoordsRaw rawInvalid = false
    ∧ (processProperties scenarioResponse).length = 1
    ∧ ¬ (processProperties scenarioResponse).length = 2
    ∧ placeMarkers [] (processProperties scenarioResponse) = ["p1"] := by
  refine ⟨by decide, by decide, by decide, by decide, by decide, by decide⟩

/-- Claim C1, amended: records lacking valid coordinates are dropped by
the filter form's normalization before the Dashboard ever sees them -
every normalized record has valid coordinates and the normalized set is
exactly the valid-coordinate subset - so for the scenario response of two
properties with one invalid, both the Property List (1 card) and the Map
View (1 marker) see only the valid record. -/
theorem coords_filtered_in_normalization (raw : List RawProperty) :
    processProperties raw = (raw.filter validCoordsRaw).map processProperty
    ∧ (∀ q ∈ processProperties raw, validCoordsNum q.latitude q.longitude = true)
    ∧ (processProperties raw).length = (raw.filter validCoordsRaw).length
    ∧ (processProperties scenarioResponse).length = 1
    ∧ placeMarkers [] (processProperties scenarioResponse) = ["p1"] := by
  refine ⟨rfl, ?_, by simp [processProperties], by decide, by decide⟩
  intro q hq
  rcases List.mem_map.mp hq with ⟨r, hr, hqr⟩
  rcases List.mem_filter.mp hr with ⟨_, hvalid⟩
  have hlat : q.latitude = r.latitude.toNum := by rw [← hqr]; rfl
  have hlng : q.longitude = r.longitude.toNum := by rw [← hqr]; rfl
  rw [hlat, hlng]
  exact hvalid

/-- Witness for C1's amended theorem: the single normalized scenario
record has valid coordinates. -/
theorem coords_filtered_in_normalization_witness :
    processProperty rawValid ∈ processProperties scenarioResponse
    ∧ validCoordsNum (processProperty rawValid).latitude
        (processProperty rawValid).longitude = true :=
  ⟨by decide,
    (coords_filtered_in_normalization scenarioResponse).2.1
      (processProperty rawValid) (by decide)⟩

/-- Membership after closing a popup. -/
theorem mem_closePopup {x id : String} {o : List String} :
    x ∈ closePopup o id ↔ x ∈ o ∧ x ≠ id := by
  simp [closePopup]

/-- Membership after opening a popup. -/
theorem mem_openPopup {x id : String} {o : List String} :
    x ∈ openPopup o id ↔ x = id ∨ x ∈ o := by
  unfold openPopup
  by_cases h : o.contains id
  · have hid : id ∈ o := by simpa using h
    simp only [h, if_pos]
    constructor
    · exact Or.inr
    · rintro (rfl | hx)
      · exact hid
      · exact hx
  · have hid : id ∉ o := by simpa using h
    simp [hid, List.mem_cons]

/-- A click on a marker in the registry runs the click listener and the
selection effect it triggers. -/
theorem mapStep_click_of_marker (s : MapPopupState) (id : String)
    (hc : id ∈ s.registry) :
    mapStep s (.click id) = selectionEffect (clickBody s id) := by
  simp [mapStep, hc]

/-- A click event for an id without a marker has no listener. -/
theorem mapStep_click_no_marker (s : MapPopupState) (id : String)
    (hc : id ∉ s.registry) :
    mapStep s (.click id) = s := by
  simp [mapStep, hc]

/-- Pointer enter on a non-selected marker closes any hovered popup and
opens this popup as the hovered one. -/
theorem mapStep_mouseover_hit (s : MapPopupState) (id : String)
    (hc : id ∈ s.registry) (hsel : s.selected ≠ some id) :
    mapStep s (.mouseover id) =
      { s with
        openPopups := openPopup
          (match s.hoveredPopup with
            | some h => closePopup s.openPopups h
            | none => s.openPopups) id
        hoveredPopup := some id } := by
  simp [mapStep, hc, hsel]

/-- Pointer enter on the marker of the currently selected property is a
no-op: hover never opens a popup for the selected marker. -/
theorem mapStep_mouseover_selected (s : MapPopupState) (id : String)
    (hsel : s.selected = some id) :
    mapStep s (.mouseover id) = s := by
  simp [mapStep, hsel]

/-- Pointer enter for an id without a marker has no listener. -/
theorem mapStep_mouseover_no_marker (s : MapPopupState) (id : String)
    (hc : id ∉ s.registry) :
    mapStep s (.mouseover id) = s := by
  simp [mapStep, hc]

/-- Pointer leave closes the popup only when it is the hovered one. -/
theorem mapStep_mouseout_hit (s : MapPopupState) (id : String)
    (hc : id ∈ s.registry) (hh : s.hoveredPopup = some id) :
    mapStep s (.mouseout id) =
      { s with openPopups := closePopup s.openPopups id, hoveredPopup := none } := by
  simp [mapStep, hc, hh]

/-- Pointer leave in any other situation changes nothing. -/
theorem mapStep_mouseout_miss (s : MapPopupState) (id : String)
    (h : ¬ (id ∈ s.registry ∧ s.hoveredPopup = some id)) :
    mapStep s (.mouseout id) = s := by
  simp only [mapStep]
  rw [if_neg]
  intro hcon
  exact h ⟨by simpa using hcon.1, hcon.2⟩

/-- An external selection change records the selection and runs the
selection effect. -/
theorem mapStep_extSelect (s : MapPopupState) (id : String) :
    mapStep s (.extSelect id) = selectionEffect { s with selected := some id } := by
  simp [mapStep]

/-- The selection effect is a no-op when the selected property has no
marker in the registry. -/
theorem selectionEffect_no_marker (s : MapPopupState) (id : String)
    (hsel : s.selected = some id) (hc : id ∉ s.registry) :
    selectionEffect s = s := by
  simp [selectionEffect, hsel, hc]

/-- Explicit form of the selection effect when the selected property has
a marker: close the previously selected popup when different, close any
hovered popup, open and record this popup. -/
theorem selectionEffect_of_marker_eq (s : MapPopupState) (id : String)
    (hsel : s.selected = some id) (hc : id ∈ s.registry) :
    selectionEffect s =
      { s with
        openPopups := openPopup
          (match s.hoveredPopup with
            | some h => closePopup
                (match s.selectedPopup with
                  | some p => if p ≠ id then closePopup s.openPopups p else s.openPopups
                  | none => s.openPopups) h
            | none =>
                match s.selectedPopup with
                | some p => if p ≠ id then closePopup s.openPopups p else s.openPopups
                | none => s.openPopups) id
        hoveredPopup := none
        selectedPopup := some id } := by
  simp [selectionEffect, hsel, hc]

/-- The selection effect restores the popup discipline whenever the
selected property has a marker; only the open-popup part of the invariant
is needed on the input state. -/
theorem popupInv_selectionEffect_of_marker (s : MapPopupState) (id : String)
    (hsel : s.selected = some id) (hc : id ∈ s.registry)
    (h1 : ∀ p ∈ s.openPopups, s.selectedPopup = some p ∨ s.hoveredPopup = some p) :
    popupInv (selectionEffect s) := by
  rw [selectionEffect_of_marker_eq s id hsel hc]
  refine ⟨?_, by simp, by simp⟩
  intro x hx
  dsimp only at hx ⊢
  rcases mem_openPopup.mp hx with rfl | hx2
  · exact Or.inl rfl
  · refine Or.inl ?_
    have key : x = id := by
      rcases hhp : s.hoveredPopup with _ | hh <;> rw [hhp] at hx2 <;>
        rcases hsp : s.selectedPopup with _ | p <;> rw [hsp] at hx2 <;> dsimp only at hx2
      · rcases h1 x hx2 with hcase | hcase
        · rw [hsp] at hcase; exact absurd hcase (by simp)
        · rw [hhp] at hcase; exact absurd hcase (by simp)
      · by_cases hpi : p ≠ id
        · rw [if_pos hpi] at hx2
          rcases mem_closePopup.mp hx2 with ⟨hx3, hnep⟩
          rcases h1 x hx3 with hcase | hcase
          · rw [hsp] at hcase; exact absurd (Option.some.inj hcase).symm hnep
          · rw [hhp] at hcase; exact absurd hcase (by simp)
        · rw [if_neg hpi] at hx2
          push_neg at hpi
          rcases h1 x hx2 with hcase | hcase
          · rw [hsp] at hcase; rw [← hpi]; exact (Option.some.inj hcase).symm
          · rw [hhp] at hcase; exact absurd hcase (by simp)
      · rcases mem_closePopup.mp hx2 with ⟨hx3, hneh⟩
        rcases h1 x hx3 with hcase | hcase
        · rw [hsp] at hcase; exact absurd hcase (by simp)
        · rw [hhp] at hcase; exact absurd (Option.some.inj hcase).symm hneh
      · rcases mem_closePopup.mp hx2 with ⟨hx3, hneh⟩
        by_cases hpi : p ≠ id
        · rw [if_pos hpi] at hx3
          rcases mem_closePopup.mp hx3 with ⟨hx4, hnep⟩
          rcases h1 x hx4 with hcase | hcase
          · rw [hsp] at hcase; exact absurd (Option.some.inj hcase).symm hnep
          · rw [hhp] at hcase; exact absurd (Option.some.inj hcase).symm hneh
        · rw [if_neg hpi] at hx3
          push_neg at hpi
          rcases h1 x hx3 with hcase | hcase
          · rw [hsp] at hcase; rw [← hpi]; exact (Option.some.inj hcase).symm
          · rw [hhp] at hcase; exact absurd (Option.some.inj hcase).symm hneh
    rw [key]

/-- After the click listener body, only the clicked popup can be open. -/
theorem popupInv_clickBody_open (s : MapPopupState) (id : String)
    (h1 : ∀ p ∈ s.openPopups, s.selectedPopup = some p ∨ s.hoveredPopup = some p) :
    ∀ p ∈ (clickBody s id).openPopups,
      (clickBody s id).selectedPopup = some p ∨ (clickBody s id).hoveredPopup = some p := by
  intro x hx
  unfold clickBody at hx ⊢
  dsimp only at hx ⊢
  rcases mem_openPopup.mp hx with rfl | hx2
  · exact Or.inl rfl
  · exfalso
    rcases hhp : s.hoveredPopup with _ | hh <;> rw [hhp] at hx2 <;>
      rcases hsp : s.selectedPopup with _ | p <;> rw [hsp] at hx2 <;> dsimp only at hx2
    · rcases h1 x hx2 with hcase | hcase
      · rw [hsp] at hcase; exact absurd hcase (by simp)
      · rw [hhp] at hcase; exact absurd hcase (by simp)
    · rcases mem_closePopup.mp hx2 with ⟨hx3, hnep⟩
      rcases h1 x hx3 with hcase | hcase
      · rw [hsp] at hcase; exact absurd (Option.some.inj hcase).symm hnep
      · rw [hhp] at hcase; exact absurd hcase (by simp)
    · rcases mem_closePopup.mp hx2 with ⟨hx3, hneh⟩
      rcases h1 x hx3 with hcase | hcase
      · rw [hsp] at hcase; exact absurd hcase (by simp)
      · rw [hhp] at hcase; exact absurd (Option.some.inj hcase).symm hneh
    · rcases mem_closePopup.mp hx2 with ⟨hx3, hneh⟩
      rcases mem_closePopup.mp hx3 with ⟨hx4, hnep⟩
      rcases h1 x hx4 with hcase | hcase
      · rw [hsp] at hcase; exact absurd (Option.some.inj hcase).symm hnep
      · rw [hhp] at hcase; exact absurd (Option.some.inj hcase).symm hneh

/-- Every marker interaction event preserves the popup discipline. -/
theorem popupInv_step (s : MapPopupState) (e : MapEvent) (hs : popupInv s) :
    popupInv (mapStep s e) := by
  obtain ⟨h1, h2, h3⟩ := hs
  cases e with
  | click id =>
    by_cases hc : id ∈ s.registry
    · rw [mapStep_click_of_marker s id hc]
      exact popupInv_selectionEffect_of_marker (clickBody s id) id rfl hc
        (popupInv_clickBody_open s id h1)
    · rw [mapStep_click_no_marker s id hc]
      exact ⟨h1, h2, h3⟩
  | mouseover id =>
    by_cases hc : id ∈ s.registry
    · by_cases hsel : s.selected = some id
      · rw [mapStep_mouseover_selected s id hsel]
        exact ⟨h1, h2, h3⟩
      · rw [mapStep_mouseover_hit s id hc hsel]
        refine ⟨?_, ?_, ?_⟩
        · intro x hx
          dsimp only at hx ⊢
          rcases mem_openPopup.mp hx with rfl | hx2
          · exact Or.inr rfl
          · rcases hhp : s.hoveredPopup with _ | hh <;> rw [hhp] at hx2 <;> dsimp only at hx2
            · rcases h1 x hx2 with hcase | hcase
              · exact Or.inl hcase
              · rw [hhp] at hcase; exact absurd hcase (by simp)
            · rcases mem_closePopup.mp hx2 with ⟨hx3, hneh⟩
              rcases h1 x hx3 with hcase | hcase
              · exact Or.inl hcase
              · rw [hhp] at hcase
                exact absurd (Option.some.inj hcase).symm hneh
        · intro h hh
          dsimp only at hh
          rw [← Option.some.inj hh]
          exact fun hcon => hsel hcon
        · intro h hh
          dsimp only at hh
          rw [← Option.some.inj hh]
          exact hc
    · rw [mapStep_mouseover_no_marker s id hc]
      exact ⟨h1, h2, h3⟩
  | mouseout id =>
    by_cases hm : id ∈ s.registry ∧ s.hoveredPopup = some id
    · rw [mapStep_mouseout_hit s id hm.1 hm.2]
      refine ⟨?_, by simp, by simp⟩
      intro x hx
      dsimp only at hx ⊢
      rcases mem_closePopup.mp hx with ⟨hx2, hne⟩
      rcases h1 x hx2 with hcase | hcase
      · exact Or.inl hcase
      · rw [hm.2] at hcase
        exact absurd (Option.some.inj hcase).symm hne
    · rw [mapStep_mouseout_miss s id hm]
      exact ⟨h1, h2, h3⟩
  | extSelect id =>
    rw [mapStep_extSelect s id]
    by_cases hc : id ∈ s.registry
    · exact popupInv_selectionEffect_of_marker { s with selected := some id } id rfl hc h1
    · rw [selectionEffect_no_marker { s with selected := some id } id rfl hc]
      refine ⟨h1, ?_, h3⟩
      intro h hh
      dsimp only at hh ⊢
      have hmem := h3 h hh
      intro hcon
      rw [← Option.some.inj hcon] at hmem
      exact hc hmem

/-- The popup discipline holds along every event trace from the initial
state. -/
theorem popupInv_trace (R : List String) (es : List MapEvent) :
    popupInv (es.foldl mapStep (initMapState R)) := by
  have hinit : popupInv (initMapState R) := by
    refine ⟨?_, by simp [initMapState], by simp [initMapState]⟩
    intro x hx
    simp [initMapState] at hx
  have hgen : ∀ (l : List MapEvent) (s : MapPopupState),
      popupInv s → popupInv (l.foldl mapStep s) := by
    intro l
    induction l with
    | nil => intro s hs; exact hs
    | cons e rest ih => intro s hs; exact ih (mapStep s e) (popupInv_step s e hs)
  exact hgen es (initMapState R) hinit

/-- Externally selecting property q while a different popup p is selected
closes p, opens q, records q as selected and clears the hover ref. -/
theorem extSelect_transition (s : MapPopupState) (q p : String)
    (hq : q ∈ s.registry) (hsp : s.selectedPopup = some p) (hpq : p ≠ q) :
    (mapStep s (.extSelect q)).selectedPopup = some q
    ∧ (mapStep s (.extSelect q)).hoveredPopup = none
    ∧ q ∈ (mapStep s (.extSelect q)).openPopups
    ∧ p ∉ (mapStep s (.extSelect q)).openPopups := by
  rw [mapStep_extSelect s q,
      selectionEffect_of_marker_eq { s with selected := some q } q rfl hq]
  dsimp only
  rw [hsp]
  dsimp only
  rw [if_pos hpq]
  refine ⟨rfl, rfl, mem_openPopup.mpr (Or.inl rfl), ?_⟩
  intro hmem
  rcases mem_openPopup.mp hmem with h | h
  · exact hpq h
  · rcases hhp : s.hoveredPopup with _ | hh <;> rw [hhp] at h <;> dsimp only at h
    · rcases mem_closePopup.mp h with ⟨_, hne⟩
      exact hne rfl
    · rcases mem_closePopup.mp h with ⟨h2, _⟩
      rcases mem_closePopup.mp h2 with ⟨_, hne⟩
      exact hne rfl

/-- Clicking the marker of q while a different popup p is selected closes
p, opens q, records q as selected and clears the hover ref. -/
theorem click_transition (s : MapPopupState) (q p : String)
    (hq : q ∈ s.registry) (hsp : s.selectedPopup = some p) (hpq : p ≠ q) :
    (mapStep s (.click q)).selectedPopup = some q
    ∧ (mapStep s (.click q)).hoveredPopup = none
    ∧ q ∈ (mapStep s (.click q)).openPopups
    ∧ p ∉ (mapStep s (.click q)).openPopups := by
  rw [mapStep_click_of_marker s q hq]
  rw [selectionEffect_of_marker_eq (clickBody s q) q rfl hq]
  dsimp only [clickBody]
  rw [hsp]
  dsimp only
  rw [if_neg (fun hcon => hcon rfl)]
  refine ⟨rfl, rfl, mem_openPopup.mpr (Or.inl rfl), ?_⟩
  intro hmem
  rcases mem_openPopup.mp hmem with h | h
  · exact hpq h
  · rcases mem_openPopup.mp h with h2 | h2
    · exact hpq h2
    · rcases hhp : s.hoveredPopup with _ | hh <;> rw [hhp] at h2 <;> dsimp only at h2
      · rcases mem_closePopup.mp h2 with ⟨_, hne⟩
        exact hne rfl
      · rcases mem_closePopup.mp h2 with ⟨h3, _⟩
        rcases mem_closePopup.mp h3 with ⟨_, hne⟩
        exact hne rfl

/-- Claim C2: along every event trace at most one popup is ever in the
selected state (every open popup is the recorded selected or hovered one,
and the hover is always suppressed for the selected property); when
property q becomes selected - by marker click or by an external selection
change - while a different popup p is selected, p ends up closed and q
open and selected with the hover cleared; and pointer enter on the
selected property's marker never opens a popup. -/
theorem popup_selection_discipline :
    (∀ (R : List String) (es : List MapEvent), popupInv (es.foldl mapStep (initMapState R)))
    ∧ (∀ (s : MapPopupState) (q p : String), q ∈ s.registry → s.selectedPopup = some p →
        p ≠ q →
        (mapStep s (.extSelect q)).selectedPopup = some q
        ∧ (mapStep s (.extSelect q)).hoveredPopup = none
        ∧ q ∈ (mapStep s (.extSelect q)).openPopups
        ∧ p ∉ (mapStep s (.extSelect q)).openPopups)
    ∧ (∀ (s : MapPopupState) (q p : String), q ∈ s.registry → s.selectedPopup = some p →
        p ≠ q →
        (mapStep s (.click q)).selectedPopup = some q
        ∧ (mapStep s (.click q)).hoveredPopup = none
        ∧ q ∈ (mapStep s (.click q)).openPopups
        ∧ p ∉ (mapStep s (.click q)).openPopups)
    ∧ (∀ (s : MapPopupState) (q : String), s.selected = some q →
        mapStep s (.mouseover q) = s) :=
  ⟨popupInv_trace,
    fun s q p hq hsp hpq => extSelect_transition s q p hq hsp hpq,
    fun s q p hq hsp hpq => click_transition s q p hq hsp hpq,
    fun s q hsel => mapStep_mouseover_selected s q hsel⟩

/-- Witness for C2 in a concrete two-marker state: selecting p2 while
p1's popup is selected (externally and by click) closes p1 and opens p2,
hovering the selected p1 is a no-op, and the invariant holds after a
concrete trace. -/
theorem popup_selection_discipline_witness :
    popupInv ([MapEvent.click "p1", MapEvent.mouseover "p2"].foldl mapStep
      (initMapState ["p1", "p2"]))
    ∧ ("p2" ∈ (MapPopupState.mk ["p1", "p2"] (some "p1") (some "p1") none ["p1"]).registry
      ∧ (mapStep (MapPopupState.mk ["p1", "p2"] (some "p1") (some "p1") none ["p1"])
          (.extSelect "p2")).selectedPopup = some "p2"
      ∧ "p2" ∈ (mapStep (MapPopupState.mk ["p1", "p2"] (some "p1") (some "p1") none ["p1"])
          (.extSelect "p2")).openPopups
      ∧ "p1" ∉ (mapStep (MapPopupState.mk ["p1", "p2"] (some "p1") (some "p1") none ["p1"])
          (.extSelect "p2")).openPopups)
    ∧ ((mapStep (MapPopupState.mk ["p1", "p2"] (some "p1") (some "p1") none ["p1"])
          (.click "p2")).selectedPopup = some "p2"
      ∧ "p1" ∉ (mapStep (MapPopupState.mk ["p1", "p2"] (some "p1") (some "p1") none ["p1"])
          (.click "p2")).openPopups)
    ∧ mapStep (MapPopupState.mk ["p1", "p2"] (some "p1") (some "p1") none ["p1"])
        (.mouseover "p1") = MapPopupState.mk ["p1", "p2"] (some "p1") (some "p1") none ["p1"] :=
  ⟨popup_selection_discipline.1 ["p1", "p2"] [MapEvent.click "p1", MapEvent.mouseover "p2"],
    ⟨by decide,
      (popup_selection_discipline.2.1 (MapPopupState.mk ["p1", "p2"] (some "p1") (some "p1")
        none ["p1"]) "p2" "p1" (by decide) rfl (by decide)).1,
      (popup_selection_discipline.2.1 (MapPopupState.mk ["p1", "p2"] (some "p1") (some "p1")
        none ["p1"]) "p2" "p1" (by decide) rfl (by decide)).2.2.1,
      (popup_selection_discipline.2.1 (MapPopupState.mk ["p1", "p2"] (some "p1") (some "p1")
        none ["p1"]) "p2" "p1" (by decide) rfl (by decide)).2.2.2⟩,
    ⟨(popup_selection_discipline.2.2.1 (MapPopupState.mk ["p1", "p2"] (some "p1") (some "p1")
        none ["p1"]) "p2" "p1" (by decide) rfl (by decide)).1,
      (popup_selection_discipline.2.2.1 (MapPopupState.mk ["p1", "p2"] (some "p1") (some "p1")
        none ["p1"]) "p2" "p1" (by decide) rfl (by decide)).2.2.2⟩,
    popup_selection_discipline.2.2.2 (MapPopupState.mk ["p1", "p2"] (some "p1") (some "p1")
      none ["p1"]) "p1" rfl⟩


/-- Proof-side rational value of a JS number (NaN mapped to 0), used only
to obtain a globally total and transitive comparison for the sort
lemmas. -/
def numVal : JsNum → ℚ
  | .nan => 0
  | .dec m k => (m : ℚ) / (10 : ℚ) ^ k

/-- Total, transitive version of the descending price comparison. -/
def rankLE (a b : Property) : Bool :=
  decide (numVal b.list_price ≤ numVal a.list_price)

/-- rankLE is transitive. -/
theorem rankLE_trans (a b c : Property) (hab : rankLE a b) (hbc : rankLE b c) :
    rankLE a c := by
  simp only [rankLE, decide_eq_true_eq] at *
  exact le_trans hbc hab

/-- rankLE is total. -/
theorem rankLE_total (a b : Property) : rankLE a b || rankLE b a := by
  simp only [rankLE]
  rcases le_total (numVal b.list_price) (numVal a.list_price) with h | h <;> simp [h]

/-- On non-NaN prices the source comparator agrees with rankLE. -/
theorem sortKeepsOrder_eq_rankLE (a b : Property)
    (ha : a.list_price.isNaN = false) (hb : b.list_price.isNaN = false) :
    sortKeepsOrder a b = rankLE a b := by
  rcases hpa : a.list_price with _ | ⟨m1, k1⟩
  · rw [hpa] at ha; simp [JsNum.isNaN] at ha
  rcases hpb : b.list_price with _ | ⟨m2, k2⟩
  · rw [hpb] at hb; simp [JsNum.isNaN] at hb
  simp only [sortKeepsOrder, rankLE, numVal, hpa, hpb, jsSub, jsGt, jsInt]
  rw [← decide_not, decide_eq_decide]
  rw [div_le_div_iff₀ (by positivity) (by positivity)]
  simp only [pow_zero, mul_one, zero_mul, not_lt, sub_nonpos]
  constructor <;> intro hh <;> exact_mod_cast hh

/-- On non-NaN prices rankLE coincides with the price being
greater-or-equal. -/
theorem rankLE_to_jsGe (a b : Property)
    (ha : a.list_price.isNaN = false) (hb : b.list_price.isNaN = false)
    (hr : rankLE a b = true) : jsGe a.list_price b.list_price = true := by
  rcases hpa : a.list_price with _ | ⟨m1, k1⟩
  · rw [hpa] at ha; simp [JsNum.isNaN] at ha
  rcases hpb : b.list_price with _ | ⟨m2, k2⟩
  · rw [hpb] at hb; simp [JsNum.isNaN] at hb
  simp only [rankLE, decide_eq_true_eq] at hr
  rw [hpa, hpb] at hr
  simp only [numVal] at hr
  rw [div_le_div_iff₀ (by positivity) (by positivity)] at hr
  simp only [jsGe, ge_iff_le, decide_eq_true_eq]
  exact_mod_cast hr

/-- For numeric inputs the source sort equals the rankLE merge sort. -/
theorem mergeSort_rankLE_eq (props : List Property)
    (h : ∀ p ∈ props, p.list_price.isNaN = false) :
    sortedProperties props = props.mergeSort rankLE := by
  have hl : ∀ a ∈ props, ∀ b ∈ props, sortKeepsOrder a b = rankLE (id a) (id b) := by
    intro a ha b hb
    exact sortKeepsOrder_eq_rankLE a b (h a ha) (h b hb)
  have hmap := List.map_mergeSort hl
  simpa [List.map_id, sortedProperties] using hmap

/-- Claim C8: the Property List renders a permutation of its input; for
inputs with numeric (non-NaN) prices the rendered order is sorted
descending by list price, and the sort is stable: the subsequence of
records at any fixed price is exactly as in the input. The rendering is a
pure function of the input list (the source sorts a spread copy), so the
order cannot change between re-renders unless the input changes and the
input array is never mutated. -/
theorem property_list_sort_contract (props : List Property)
    (h : ∀ p ∈ props, p.list_price.isNaN = false) :
    (sortedProperties props).Perm props
    ∧ (sortedProperties props).Pairwise (fun a b => jsGe a.list_price b.list_price = true)
    ∧ ∀ (c : JsNum), (sortedProperties props).filter (fun p => p.list_price == c)
        = props.filter (fun p => p.list_price == c) := by
  have hperm : (sortedProperties props).Perm props := List.mergeSort_perm props sortKeepsOrder
  have heq := mergeSort_rankLE_eq props h
  refine ⟨hperm, ?_, ?_⟩
  · have hsorted := List.sorted_mergeSort rankLE_trans rankLE_total props
    rw [← heq] at hsorted
    refine hsorted.imp_of_mem ?_
    intro a b hma hmb hr
    have hain : a ∈ props := hperm.mem_iff.mp hma
    have hbin : b ∈ props := hperm.mem_iff.mp hmb
    exact rankLE_to_jsGe a b (h a hain) (h b hbin) hr
  · intro c
    have hpw : (props.filter (fun p => p.list_price == c)).Pairwise
        (fun a b => rankLE a b) := by
      rw [List.pairwise_iff_forall_sublist]
      intro a b hsub
      have hma : a ∈ props.filter (fun p => p.list_price == c) :=
        hsub.subset (by simp)
      have hmb : b ∈ props.filter (fun p => p.list_price == c) :=
        hsub.subset (by simp)
      have hca : a.list_price = c := by
        have := (List.mem_filter.mp hma).2
        simpa using this
      have hcb : b.list_price = c := by
        have := (List.mem_filter.mp hmb).2
        simpa using this
      show rankLE a b = true
      simp [rankLE, hca, hcb]
    have hsub2 := List.sublist_mergeSort rankLE_trans rankLE_total hpw
      (List.filter_sublist props)
    rw [← heq] at hsub2
    have h3 := hsub2.filter (fun p => p.list_price == c)
    simp only [List.filter_filter, Bool.and_self] at h3
    have hlen : ((sortedProperties props).filter (fun p => p.list_price == c)).length
        = (props.filter (fun p => p.list_price == c)).length :=
      (hperm.filter (fun p => p.list_price == c)).length_eq
    exact (h3.eq_of_length hlen.symm).symm

/-- A second normalized property, more expensive than sampleActive, used
by the sort witness. -/
def sampleExpensive : Property :=
  { sampleActive with property_id := "q1", list_price := jsInt 500000 }

/-- Witness for C8 on a concrete two-property list. -/
theorem property_list_sort_contract_witness :
    (∀ p ∈ [sampleExpensive, sampleActive], p.list_price.isNaN = false)
    ∧ (sortedProperties [sampleExpensive, sampleActive]).Perm [sampleExpensive, sampleActive]
    ∧ (sortedProperties [sampleExpensive, sampleActive]).Pairwise
        (fun a b => jsGe a.list_price b.list_price = true)
    ∧ (sortedProperties [sampleExpensive, sampleActive]).filter
        (fun p => p.list_price == jsInt 400000)
        = [sampleExpensive, sampleActive].filter (fun p => p.list_price == jsInt 400000) :=
  ⟨by decide,
    (property_list_sort_contract [sampleExpensive, sampleActive] (by decide)).1,
    (property_list_sort_contract [sampleExpensive, sampleActive] (by decide)).2.1,
    (property_list_sort_contract [sampleExpensive, sampleActive] (by decide)).2.2
      (jsInt 400000)⟩


end HomeFlip
